import Mathlib

/-!
Shallow embedding of `src/cpp/ETD.cpp` and `src/cpp/TOETD.cpp`
(emphatic TD(lambda) and true-online emphatic TD(lambda) learners).
C++ doubles are modelled as rationals; the raw `double[]` buffers of
length `n` are modelled as `List ℚ`, indexed with `List.getD _ 0` just
as the loops index the arrays from `0` to `n-1`.
-/

namespace RLAlg

/-- The loop body of `dot` in both C++ files:
`for (i = 0; i < n; i++) ret += v1[i]*v2[i]`, accumulating left to right. -/
def dotLoop (v1 v2 : List ℚ) : ℕ → ℚ
  | 0 => 0
  | k + 1 => dotLoop v1 v2 k + v1.getD k 0 * v2.getD k 0

/-- Left-to-right accumulation of `f 0 + f 1 + ... + f (n-1)`, the shape of
the `D_p += delta_i * phi_p[i]` accumulation inside the `learn` loop. -/
def sumLoop (f : ℕ → ℚ) : ℕ → ℚ
  | 0 => 0
  | k + 1 => sumLoop f k + f k

/-- One full transition, the arguments of `ETD::learn`
`(phi, r, phi_p, alpha, gamma, gamma_p, I, lambda, rho)`.
`TOETD::learn` takes the same data minus `gamma` (it stores `gamma`);
its `R`/`phiPrime`/`gammaPrime` are this record's `r`/`phi_p`/`gamma_p`. -/
structure Transition where
  phi : List ℚ
  r : ℚ
  phi_p : List ℚ
  alpha : ℚ
  gamma : ℚ
  gamma_p : ℚ
  I : ℚ
  lambda : ℚ
  rho : ℚ
deriving DecidableEq

/-- State of the `ETD` class: dimensionality `n`, weights `theta`,
eligibility trace `e`, followon scalar `F`, correction scalar `D`. -/
structure ETD where
  n : ℕ
  theta : List ℚ
  e : List ℚ
  F : ℚ
  D : ℚ
deriving DecidableEq

namespace ETD

/-- The `ETD(int fvec_length)` constructor: zero-filled vectors of length
`n`, `F = 0`, `D = 0`. -/
def init (fvec_length : ℕ) : ETD :=
  ⟨fvec_length, List.replicate fvec_length 0, List.replicate fvec_length 0, 0, 0⟩

/-- Member `dot`: inner product over the `n` components of the instance. -/
def dot (s : ETD) (v1 v2 : List ℚ) : ℚ := dotLoop v1 v2 s.n

/-- `double delta = r + gamma_p * dot(theta, phi_p) - dot(theta, phi);` -/
def tdError (s : ETD) (t : Transition) : ℚ :=
  t.r + t.gamma_p * s.dot s.theta t.phi_p - s.dot s.theta t.phi

/-- `double M = lambda*I + (1-lambda)*F;` with `F` already incremented by `I`. -/
def Mof (s : ETD) (t : Transition) : ℚ :=
  t.lambda * t.I + (1 - t.lambda) * (s.F + t.I)

/-- `double S = rho*alpha*M*(1 - rho*gamma*lambda*dot(phi, e));` -/
def Sof (s : ETD) (t : Transition) : ℚ :=
  t.rho * t.alpha * Mof s t * (1 - t.rho * t.gamma * t.lambda * s.dot t.phi s.e)

/-- The trace after the loop: `e[i] = rho*gamma*lambda*e[i] + S*phi[i];`. -/
def traceNext (s : ETD) (t : Transition) : List ℚ :=
  (List.range s.n).map fun i =>
    t.rho * t.gamma * t.lambda * s.e.getD i 0 + Sof s t * t.phi.getD i 0

/-- `delta_i = delta*e[i] + D * (e[i] - rho*alpha*M*phi[i]);` where `e[i]`
is the freshly updated trace component. -/
def deltaComp (s : ETD) (t : Transition) (i : ℕ) : ℚ :=
  tdError s t * (traceNext s t).getD i 0 +
    s.D * ((traceNext s t).getD i 0 - t.rho * t.alpha * Mof s t * t.phi.getD i 0)

/-- `ETD::learn`: performs the full update of `theta`, `e`, `F`, `D`.
`F` is first incremented by `I` (before `M` is computed) and finally
scaled by `rho*gamma_p`; `D` becomes the accumulated `D_p`. -/
def learn (s : ETD) (t : Transition) : ETD :=
  { n := s.n
    theta := (List.range s.n).map fun i => s.theta.getD i 0 + deltaComp s t i
    e := traceNext s t
    F := (s.F + t.I) * (t.rho * t.gamma_p)
    D := sumLoop (fun i => deltaComp s t i * t.phi_p.getD i 0) s.n }

/-- `ETD::predict`: `return dot(theta, fvec);`. -/
def predict (s : ETD) (fvec : List ℚ) : ℚ := s.dot s.theta fvec

/-- Running a sequence of `learn` calls in order. -/
def runSeq (s : ETD) : List Transition → ETD
  | [] => s
  | t :: ts => runSeq (s.learn t) ts

end ETD

/-- State of the `TOETD` class: weights `theta`, trace `e`, dimensionality
`n`, followon `F`, and the auxiliary saved scalars `D` and `gamma`. -/
structure TOETD where
  theta : List ℚ
  e : List ℚ
  n : ℕ
  F : ℚ
  D : ℚ
  gamma : ℚ
deriving DecidableEq

namespace TOETD

/-- The `TOETD(int nArg, double I)` constructor: note the parameter `I`
is never read; `theta` and `e` are zero-filled, `F = D = gamma = 0`. -/
def init (nArg : ℕ) (I : ℚ) : TOETD :=
  ⟨List.replicate nArg 0, List.replicate nArg 0, nArg, 0, 0, 0⟩

/-- Member `dot` of `TOETD`. -/
def dot (s : TOETD) (v1 v2 : List ℚ) : ℚ := dotLoop v1 v2 s.n

/-- `TOETD::learn(alpha, I, lambda, phi, rho, R, phiPrime, gammaPrime)`:
identical arithmetic to `ETD::learn` except that the `gamma` used in `S`
and in the trace decay is the stored `gamma` from the previous call, and
the stored `gamma` is replaced by `gammaPrime` at the end. -/
def learn (s : TOETD) (alpha I lambda : ℚ) (phi : List ℚ) (rho R : ℚ)
    (phiPrime : List ℚ) (gammaPrime : ℚ) : TOETD :=
  let delta := R + gammaPrime * s.dot s.theta phiPrime - s.dot s.theta phi
  let F1 := s.F + I
  let M := lambda * I + (1 - lambda) * F1
  let S := rho * alpha * M * (1 - rho * s.gamma * lambda * s.dot phi s.e)
  let eNew := (List.range s.n).map fun i =>
    rho * s.gamma * lambda * s.e.getD i 0 + S * phi.getD i 0
  let dI := fun i =>
    delta * eNew.getD i 0 + s.D * (eNew.getD i 0 - rho * alpha * M * phi.getD i 0)
  { theta := (List.range s.n).map fun i => s.theta.getD i 0 + dI i
    e := eNew
    n := s.n
    F := F1 * (rho * gammaPrime)
    D := sumLoop (fun i => dI i * phiPrime.getD i 0) s.n
    gamma := gammaPrime }

/-- `TOETD::predict`: `return dot(theta, phi);`. -/
def predict (s : TOETD) (phi : List ℚ) : ℚ := s.dot s.theta phi

/-- Running a sequence of calls; the `gamma` field of each `Transition`
is ignored, since `TOETD` carries its own `gamma` state. -/
def runSeq (s : TOETD) : List Transition → TOETD
  | [] => s
  | t :: ts => runSeq (s.learn t.alpha t.I t.lambda t.phi t.rho t.r t.phi_p t.gamma_p) ts

end TOETD

/-- The spec's single error kind (§7). -/
inductive Err where
  | InvalidArgument
deriving DecidableEq

/-- Modelled from the spec: the C++ constructor `ETD(int fvec_length)` performs
no validation; §4.1 requires construction to fail with `InvalidArgument`
when `dimension <= 0`, and to succeed otherwise. -/
def ETD.make (dimension : ℤ) : Except Err ETD :=
  if dimension ≤ 0 then .error .InvalidArgument else .ok (ETD.init dimension.toNat)

/-- Modelled from the spec: `ETD::learn` takes raw arrays and performs no
length check; §4.2/§7 require both vector lengths to be validated before any
state mutation, failing with `InvalidArgument` on mismatch, so that a
rejected call yields no successor state (the prior state is untouched). -/
def ETD.learnChecked (s : ETD) (t : Transition) : Except Err ETD :=
  if t.phi.length = s.n ∧ t.phi_p.length = s.n then .ok (s.learn t)
  else .error .InvalidArgument

/-- Modelled from the spec: length validation for `ETD::predict` (§4.3),
absent from the C++ source. -/
def ETD.predictChecked (s : ETD) (fvec : List ℚ) : Except Err ℚ :=
  if fvec.length = s.n then .ok (s.predict fvec) else .error .InvalidArgument

/-- The four state components shared by the two variants coincide. -/
def agrees (a : ETD) (b : TOETD) : Prop :=
  a.n = b.n ∧ a.theta = b.theta ∧ a.e = b.e ∧ a.F = b.F ∧ a.D = b.D

/-- Rewrites a transition sequence so that the `gamma` argument handed to
`ETD.learn` is `g` on the first call and the `gamma_p` of the immediately
preceding call on every later one — the threading that mirrors `TOETD`'s
carried `gamma` state. -/
def threadGammas (g : ℚ) : List Transition → List Transition
  | [] => []
  | t :: ts => { t with gamma := g } :: threadGammas t.gamma_p ts

/-- The §8 scenario transition: `phi=[1,0], reward=1, phi_next=[0,1],
alpha=0.1, gamma=0.9, gamma_next=0.9, interest=1, lambda=0, rho=1`. -/
def tScenario : Transition := ⟨[1, 0], 1, [0, 1], 1/10, 9/10, 9/10, 1, 0, 1⟩

/-- A first-call transition with `interest = 2`, exhibiting the extra
`interest` factor in the claimed first-call weight formula. -/
def tInterestTwo : Transition := ⟨[1], 1, [0], 1, 0, 0, 2, 0, 1⟩

/-- A zero-update transition: `phi = [0]`, `reward = 0`, `gamma_next = 0`. -/
def tZeroStep : Transition := ⟨[0], 0, [7], 1, 1, 0, 1, 1, 1⟩

/-- A state with zero trace but nonzero weights, followon and dual. -/
def sZeroStep : ETD := ⟨1, [5], [0], 2, 3⟩

/-- A transition with `rho = 0` and all other arguments nonzero. -/
def tRhoZero : Transition := ⟨[1], 1, [1], 1, 1, 1, 1, 1, 0⟩

/-- A state with nonzero weights, trace, followon and dual. -/
def sRhoZero : ETD := ⟨1, [3], [2], 5, 7⟩

/-- A generic concrete transition of dimension 2. -/
def tGeneric : Transition := ⟨[1, 2], 3, [4, 5], 1, 1/2, 1/2, 1, 1/2, 2⟩

/-- A length-1 transition for exercising the checked interface. -/
def tChecked : Transition := ⟨[1], 0, [2], 0, 0, 0, 0, 0, 0⟩

/-! ### Helper lemmas -/

/-- The `dot` loop computes the mathematical inner product over `n` terms. -/
theorem dotLoop_eq_sum (v1 v2 : List ℚ) (n : ℕ) :
    dotLoop v1 v2 n = ∑ i ∈ Finset.range n, v1.getD i 0 * v2.getD i 0 := by
  induction n with
  | zero => rfl
  | succ k ih => rw [dotLoop, ih, Finset.sum_range_succ]

/-- The `D_p` accumulation loop computes the sum of its terms. -/
theorem sumLoop_eq_sum (f : ℕ → ℚ) (n : ℕ) :
    sumLoop f n = ∑ i ∈ Finset.range n, f i := by
  induction n with
  | zero => rfl
  | succ k ih => rw [sumLoop, ih, Finset.sum_range_succ]

/-- Reading component `i < n` of a vector built by mapping over `0..n-1`. -/
theorem getD_map_range (f : ℕ → ℚ) {i n : ℕ} (h : i < n) :
    ((List.range n).map f).getD i 0 = f i := by
  rw [List.getD_eq_getElem?_getD, List.getElem?_map, List.getElem?_range h,
    Option.map_some']
  rfl

/-- Every component of a zero-filled vector reads as `0`. -/
theorem getD_replicate_zero (n i : ℕ) :
    (List.replicate n (0 : ℚ)).getD i 0 = 0 := by
  rw [List.getD_eq_getElem?_getD, List.getElem?_replicate]
  split <;> rfl

/-- Rebuilding a length-`n` vector componentwise reproduces it. -/
theorem map_range_getD_self {l : List ℚ} {n : ℕ} (h : l.length = n) :
    (List.range n).map (fun i => l.getD i 0) = l := by
  apply List.ext_getElem?
  intro i
  rw [List.getElem?_map]
  rcases lt_or_ge i n with hi | hi
  · rw [List.getElem?_range hi, Option.map_some', List.getD_eq_getElem?_getD,
      List.getElem?_eq_getElem (h ▸ hi)]
    rfl
  · rw [List.getElem?_eq_none (by simpa using hi),
      List.getElem?_eq_none (by omega)]
    rfl

/-- `learn` never changes the dimensionality. -/
theorem ETD.n_learn (s : ETD) (t : Transition) : (s.learn t).n = s.n := rfl

/-- A run of `learn` calls never changes the dimensionality. -/
theorem ETD.n_runSeq (ts : List Transition) (s : ETD) :
    (ETD.runSeq s ts).n = s.n := by
  induction ts generalizing s with
  | nil => rfl
  | cons t ts ih => rw [ETD.runSeq, ih, ETD.n_learn]

/-- Reading the updated trace outside the `n` components gives the default. -/
theorem etd_traceNext_getD_zero_of_oob (s : ETD) (t : Transition) {i : ℕ}
    (h : s.n ≤ i) : (ETD.traceNext s t).getD i 0 = 0 := by
  rw [List.getD_eq_getElem?_getD, List.getElem?_eq_none]
  · rfl
  · simpa [ETD.traceNext] using h

/-! ### Claim theorems -/

/-- Claim C1: `learn` updates the state exactly by the §4.2 algorithm:
`followon` is first incremented by `interest` and finally scaled by
`rho*gamma_next`; the new trace is componentwise
`rho*gamma*lambda*trace[i] + S*phi[i]` with
`S = rho*alpha*M*(1 - rho*gamma*lambda*dot(phi, trace))` and
`M = lambda*interest + (1-lambda)*followon`; each weight moves by
`delta_i = delta*trace[i] + dual*(trace[i] - rho*alpha*M*phi[i])` taken at
the freshly updated trace, with
`delta = reward + gamma_next*dot(weights, phi_next) - dot(weights, phi)`;
and the new dual is the sum over `i` of `delta_i*phi_next[i]`. -/
theorem etd_learn_follows_spec (s : ETD) (t : Transition) :
    (ETD.learn s t).n = s.n ∧
    (ETD.learn s t).e = (List.range s.n).map (fun i =>
      t.rho * t.gamma * t.lambda * s.e.getD i 0 +
        t.rho * t.alpha * (t.lambda * t.I + (1 - t.lambda) * (s.F + t.I)) *
          (1 - t.rho * t.gamma * t.lambda *
            ∑ j ∈ Finset.range s.n, t.phi.getD j 0 * s.e.getD j 0) *
          t.phi.getD i 0) ∧
    (ETD.learn s t).theta = (List.range s.n).map (fun i =>
      s.theta.getD i 0 +
        ((t.r + t.gamma_p * (∑ j ∈ Finset.range s.n, s.theta.getD j 0 * t.phi_p.getD j 0)
            - ∑ j ∈ Finset.range s.n, s.theta.getD j 0 * t.phi.getD j 0) *
          (ETD.learn s t).e.getD i 0 +
          s.D * ((ETD.learn s t).e.getD i 0 -
            t.rho * t.alpha * (t.lambda * t.I + (1 - t.lambda) * (s.F + t.I)) *
              t.phi.getD i 0))) ∧
    (ETD.learn s t).D = ∑ i ∈ Finset.range s.n,
      ((t.r + t.gamma_p * (∑ j ∈ Finset.range s.n, s.theta.getD j 0 * t.phi_p.getD j 0)
          - ∑ j ∈ Finset.range s.n, s.theta.getD j 0 * t.phi.getD j 0) *
        (ETD.learn s t).e.getD i 0 +
        s.D * ((ETD.learn s t).e.getD i 0 -
          t.rho * t.alpha * (t.lambda * t.I + (1 - t.lambda) * (s.F + t.I)) *
            t.phi.getD i 0)) * t.phi_p.getD i 0 ∧
    (ETD.learn s t).F = (s.F + t.I) * t.rho * t.gamma_p := by
  refine ⟨rfl, ?_, ?_, ?_, ?_⟩
  · simp only [ETD.learn, ETD.traceNext, ETD.Sof, ETD.Mof, ETD.dot, dotLoop_eq_sum]
  · simp only [ETD.learn, ETD.deltaComp, ETD.traceNext, ETD.tdError, ETD.Sof,
      ETD.Mof, ETD.dot, dotLoop_eq_sum]
  · simp only [ETD.learn, ETD.deltaComp, ETD.traceNext, ETD.tdError, ETD.Sof,
      ETD.Mof, ETD.dot, dotLoop_eq_sum, sumLoop_eq_sum]
  · simp only [ETD.learn]
    ring

/-- Claim C2: on a fresh dimension-2 learner, the single §8 scenario call
`learn(phi=[1,0], reward=1, phi_next=[0,1], alpha=0.1, gamma=0.9,
gamma_next=0.9, interest=1, lambda=0, rho=1)` yields exactly
`delta = 1`, `followon = 1` before the final scaling and `0.9` after,
`trace = [0.1, 0]`, `weights = [0.1, 0]`, `dual = 0`. -/
theorem etd_scenario_dim2 :
    ETD.tdError (ETD.init 2) tScenario = 1 ∧
    (ETD.init 2).F + tScenario.I = 1 ∧
    ETD.learn (ETD.init 2) tScenario = ⟨2, [1/10, 0], [1/10, 0], 9/10, 0⟩ := by
  refine ⟨?_, ?_, ?_⟩
  · simp only [ETD.tdError, ETD.init, ETD.dot, dotLoop, List.getD_cons_zero,
      List.getD_cons_succ, List.replicate, tScenario]
    norm_num
  · simp only [ETD.init, tScenario]
    norm_num
  · simp only [ETD.learn, ETD.init, ETD.deltaComp, ETD.traceNext, ETD.tdError,
      ETD.Mof, ETD.Sof, ETD.dot, dotLoop, sumLoop, tScenario,
      show List.range 2 = [0, 1] from rfl, List.map_cons, List.map_nil,
      List.getD_cons_zero, List.getD_cons_succ, List.replicate,
      ETD.mk.injEq, List.cons.injEq, List.nil_eq, and_true, true_and]
    norm_num

/-- Counterexample to claim C5 as stated: with `interest = 2` (transition
`tInterestTwo`, fresh dimension-1 learner) the claimed first-call update
`delta_i = delta * S * interest * phi[i]` with `S = rho*alpha*M` predicts
`weights[0] = 0 + 1*2*2*1 = 4`, but `learn` produces `weights[0] = 2`:
the claimed formula double-counts `interest`, which already occurs in `S`
through `M`. -/
theorem etd_first_call_counterexample :
    ¬ ((ETD.learn (ETD.init 1) tInterestTwo).theta.getD 0 0 =
        (ETD.init 1).theta.getD 0 0 +
          ETD.tdError (ETD.init 1) tInterestTwo *
            (tInterestTwo.rho * tInterestTwo.alpha *
              (tInterestTwo.lambda * tInterestTwo.I +
                (1 - tInterestTwo.lambda) * ((ETD.init 1).F + tInterestTwo.I))) *
            tInterestTwo.I * tInterestTwo.phi.getD 0 0) := by
  simp only [ETD.learn, ETD.init, ETD.deltaComp, ETD.traceNext, ETD.tdError,
    ETD.Mof, ETD.Sof, ETD.dot, dotLoop, tInterestTwo,
    show List.range 1 = [0] from rfl, List.map_cons, List.map_nil,
    List.getD_cons_zero, List.getD_cons_succ, List.replicate]
  norm_num

/-- Claim C5 amended: on a freshly constructed learner, one `learn` call
updates every weight component by `delta_i = delta * S * phi[i]` (no extra
`interest` factor) where `S = rho*alpha*M` computed from the fresh state
equals `rho*alpha*interest`; in particular the update is the semi-gradient
step `weights[i] := weights[i] + rho*alpha*interest*delta*phi[i]`, which
with `lambda = 0` is the standard TD(0) step. -/
theorem etd_first_call_simplification (n : ℕ) (t : Transition) (i : ℕ)
    (hi : i < n) :
    ETD.Sof (ETD.init n) t = t.rho * t.alpha * t.I ∧
    (ETD.learn (ETD.init n) t).theta.getD i 0 =
      ETD.tdError (ETD.init n) t * ETD.Sof (ETD.init n) t * t.phi.getD i 0 ∧
    (ETD.learn (ETD.init n) t).theta.getD i 0 =
      t.rho * t.alpha * t.I * ETD.tdError (ETD.init n) t * t.phi.getD i 0 := by
  have hS : ETD.Sof (ETD.init n) t = t.rho * t.alpha * t.I := by
    simp only [ETD.Sof, ETD.Mof, ETD.init, ETD.dot, dotLoop_eq_sum,
      getD_replicate_zero, mul_zero, Finset.sum_const_zero]
    ring
  have htr : (ETD.traceNext (ETD.init n) t).getD i 0 =
      t.rho * t.alpha * t.I * t.phi.getD i 0 := by
    have h1 : (ETD.traceNext (ETD.init n) t).getD i 0 =
        t.rho * t.gamma * t.lambda * ((ETD.init n).e.getD i 0) +
          ETD.Sof (ETD.init n) t * t.phi.getD i 0 :=
      getD_map_range _ hi
    rw [h1, hS]
    simp only [ETD.init, getD_replicate_zero, mul_zero, zero_add]
  have hth : (ETD.learn (ETD.init n) t).theta.getD i 0 =
      (ETD.init n).theta.getD i 0 + ETD.deltaComp (ETD.init n) t i :=
    getD_map_range _ hi
  refine ⟨hS, ?_, ?_⟩
  · rw [hth, ETD.deltaComp, htr, hS]
    simp only [ETD.init, getD_replicate_zero, zero_mul, zero_add, add_zero]
    ring
  · rw [hth, ETD.deltaComp, htr]
    simp only [ETD.init, getD_replicate_zero, zero_mul, zero_add, add_zero]
    ring

/-- Witness for the amended claim C5 at dimension 1, component 0, with
`interest = 2`. -/
theorem etd_first_call_simplification_witness :
    ETD.Sof (ETD.init 1) tInterestTwo =
      tInterestTwo.rho * tInterestTwo.alpha * tInterestTwo.I ∧
    (ETD.learn (ETD.init 1) tInterestTwo).theta.getD 0 0 =
      ETD.tdError (ETD.init 1) tInterestTwo * ETD.Sof (ETD.init 1) tInterestTwo *
        tInterestTwo.phi.getD 0 0 ∧
    (ETD.learn (ETD.init 1) tInterestTwo).theta.getD 0 0 =
      tInterestTwo.rho * tInterestTwo.alpha * tInterestTwo.I *
        ETD.tdError (ETD.init 1) tInterestTwo * tInterestTwo.phi.getD 0 0 :=
  etd_first_call_simplification 1 tInterestTwo 0 (by norm_num)

/-- Claim C6: learning is deterministic — two freshly constructed learners of
the same dimension fed the same call sequence end with identical weights,
and a replay from a fresh learner reproduces the same weights exactly
(the embedding of `ETD::learn` is a pure function of state and arguments;
the C++ reads no clock, randomness or other ambient state). -/
theorem etd_deterministic (n : ℕ) (ts : List Transition) (l1 l2 : ETD)
    (h1 : l1 = ETD.init n) (h2 : l2 = ETD.init n) :
    (ETD.runSeq l1 ts).theta = (ETD.runSeq l2 ts).theta := by
  subst h1
  subst h2
  rfl

/-- Witness for C6 at dimension 2 with one concrete transition. -/
theorem etd_deterministic_witness :
    (ETD.runSeq (ETD.init 2) [tGeneric]).theta =
      (ETD.runSeq (ETD.init 2) [tGeneric]).theta :=
  etd_deterministic 2 [tGeneric] (ETD.init 2) (ETD.init 2) rfl rfl

/-- Claim C7: for every state reachable by a sequence of `learn` calls from a
fresh learner, `predict f` returns exactly the dot product of the current
weights with `f` — the sum of the elementwise products over the `n`
components. `predict` is embedded as a pure function (the C++ body only
calls `dot`, which reads and writes nothing of the instance state), so it
modifies no Learner state. -/
theorem etd_predict_consistency (n : ℕ) (ts : List Transition) (f : List ℚ) :
    ETD.predict (ETD.runSeq (ETD.init n) ts) f =
      ∑ i ∈ Finset.range n, (ETD.runSeq (ETD.init n) ts).theta.getD i 0 * f.getD i 0 := by
  rw [ETD.predict, ETD.dot, ETD.n_runSeq, show (ETD.init n).n = n from rfl,
    dotLoop_eq_sum]

/-- Claim C9: the `TOETD(int nArg, double I)` constructor never reads `I`:
any two interest arguments give identical initial states, and every
subsequent sequence of `learn` and `predict` calls behaves identically. -/
theorem toetd_ignores_interest (n : ℕ) (I1 I2 : ℚ) (ts : List Transition)
    (f : List ℚ) :
    TOETD.init n I1 = TOETD.init n I2 ∧
    TOETD.runSeq (TOETD.init n I1) ts = TOETD.runSeq (TOETD.init n I2) ts ∧
    (TOETD.runSeq (TOETD.init n I1) ts).predict f =
      (TOETD.runSeq (TOETD.init n I2) ts).predict f :=
  ⟨rfl, rfl, rfl⟩

/-- Claim C8: if `learn` is called with `phi` all zero, `reward = 0` and
`gamma_next = 0`, the TD error `delta` is `0` for every starting state, and
when the trace is also all zero (so the dual-correction contribution
vanishes) every `delta_i` is `0` and the weights are unchanged. -/
theorem etd_zero_update (s : ETD) (t : Transition)
    (hθ : s.theta.length = s.n) (hφ : t.phi = List.replicate s.n 0)
    (hr : t.r = 0) (hg : t.gamma_p = 0) :
    ETD.tdError s t = 0 ∧
    (s.e = List.replicate s.n 0 →
      (∀ i, ETD.deltaComp s t i = 0) ∧ (ETD.learn s t).theta = s.theta) := by
  have htd : ETD.tdError s t = 0 := by
    rw [ETD.tdError, hr, hg, hφ]
    simp [ETD.dot, dotLoop_eq_sum, getD_replicate_zero]
  refine ⟨htd, fun he => ?_⟩
  have htr : ∀ i, (ETD.traceNext s t).getD i 0 = 0 := by
    intro i
    rcases lt_or_ge i s.n with hi | hi
    · rw [ETD.traceNext, getD_map_range _ hi, he, hφ]
      simp [getD_replicate_zero]
    · exact etd_traceNext_getD_zero_of_oob s t hi
  have hdc : ∀ i, ETD.deltaComp s t i = 0 := by
    intro i
    rw [ETD.deltaComp, htd, htr i, hφ]
    simp [getD_replicate_zero]
  refine ⟨hdc, ?_⟩
  have hmap : ((List.range s.n).map fun i => s.theta.getD i 0 + ETD.deltaComp s t i)
      = (List.range s.n).map fun i => s.theta.getD i 0 := by
    apply List.map_congr_left
    intro i _
    rw [hdc i, add_zero]
  show ((List.range s.n).map fun i => s.theta.getD i 0 + ETD.deltaComp s t i) = s.theta
  rw [hmap, map_range_getD_self hθ]

/-- Witness for C8: a state with nonzero weights, followon and dual but zero
trace, fed the zero transition. -/
theorem etd_zero_update_witness :
    ETD.tdError sZeroStep tZeroStep = 0 ∧
    ETD.deltaComp sZeroStep tZeroStep 0 = 0 ∧
    (ETD.learn sZeroStep tZeroStep).theta = sZeroStep.theta := by
  have h := etd_zero_update sZeroStep tZeroStep rfl rfl rfl rfl
  exact ⟨h.1, (h.2 rfl).1 0, (h.2 rfl).2⟩

/-- Claim C10: a `learn` call with `rho = 0` leaves the weights unchanged and
resets the trace to all zeros, the followon to `0` and the dual to `0`;
every per-component `delta_i` is `0` because the trace decay and the scale
`S` both carry a factor `rho`. -/
theorem etd_rho_zero (s : ETD) (t : Transition)
    (hθ : s.theta.length = s.n) (hρ : t.rho = 0) :
    (∀ i, ETD.deltaComp s t i = 0) ∧
    (ETD.learn s t).theta = s.theta ∧
    (ETD.learn s t).e = List.replicate s.n 0 ∧
    (ETD.learn s t).F = 0 ∧
    (ETD.learn s t).D = 0 := by
  have hS : ETD.Sof s t = 0 := by
    rw [ETD.Sof, hρ]
    ring
  have htr : ∀ i, (ETD.traceNext s t).getD i 0 = 0 := by
    intro i
    rcases lt_or_ge i s.n with hi | hi
    · rw [ETD.traceNext, getD_map_range _ hi, hρ, hS]
      ring
    · exact etd_traceNext_getD_zero_of_oob s t hi
  have hdc : ∀ i, ETD.deltaComp s t i = 0 := by
    intro i
    rw [ETD.deltaComp, htr i, hρ]
    ring
  refine ⟨hdc, ?_, ?_, ?_, ?_⟩
  · have hmap : ((List.range s.n).map fun i => s.theta.getD i 0 + ETD.deltaComp s t i)
        = (List.range s.n).map fun i => s.theta.getD i 0 := by
      apply List.map_congr_left
      intro i _
      rw [hdc i, add_zero]
    show ((List.range s.n).map fun i => s.theta.getD i 0 + ETD.deltaComp s t i) = s.theta
    rw [hmap, map_range_getD_self hθ]
  · show ETD.traceNext s t = List.replicate s.n 0
    apply List.ext_getElem?
    intro i
    rcases lt_or_ge i s.n with hi | hi
    · rw [List.getElem?_replicate, if_pos hi]
      have hlen : i < (ETD.traceNext s t).length := by
        simpa [ETD.traceNext] using hi
      rw [List.getElem?_eq_getElem hlen]
      have h0 := htr i
      rw [List.getD_eq_getElem?_getD, List.getElem?_eq_getElem hlen] at h0
      simpa using h0
    · rw [List.getElem?_replicate, if_neg (by omega),
        List.getElem?_eq_none (by simpa [ETD.traceNext] using hi)]
  · show (s.F + t.I) * (t.rho * t.gamma_p) = 0
    rw [hρ]
    ring
  · show sumLoop (fun i => ETD.deltaComp s t i * t.phi_p.getD i 0) s.n = 0
    rw [sumLoop_eq_sum]
    apply Finset.sum_eq_zero
    intro i _
    rw [hdc i, zero_mul]

/-- Claim C4: the Learner raises exactly one error kind, `InvalidArgument`:
construction fails exactly when `dimension <= 0`, and `learn`/`predict`
fail exactly when a vector argument's length differs from the fixed
dimension; a rejected `learn` produces no successor state, so the prior
`weights`/`trace`/`followon`/`dual` are untouched (the checked interface is
modelled from the spec — the C++ source validates nothing). -/
theorem etd_invalid_argument (d : ℤ) (s : ETD) (t : Transition) (f : List ℚ) :
    (∀ er : Err, er = Err.InvalidArgument) ∧
    (ETD.make d = .error .InvalidArgument ↔ d ≤ 0) ∧
    (ETD.learnChecked s t = .error .InvalidArgument ↔
      ¬ (t.phi.length = s.n ∧ t.phi_p.length = s.n)) ∧
    (t.phi.length = s.n → t.phi_p.length = s.n →
      ETD.learnChecked s t = Except.ok (ETD.learn s t)) ∧
    (ETD.predictChecked s f = .error .InvalidArgument ↔ f.length ≠ s.n) := by
  refine ⟨fun er => by cases er; rfl, ?_, ?_, ?_, ?_⟩
  · rw [ETD.make]
    split <;> simp_all
  · rw [ETD.learnChecked]
    split <;> simp_all
  · intro h1 h2
    rw [ETD.learnChecked, if_pos ⟨h1, h2⟩]
  · rw [ETD.predictChecked]
    split <;> simp_all

/-- Witness for C4: a matching call succeeds, a non-positive dimension and a
wrong-length prediction vector are rejected. -/
theorem etd_invalid_argument_witness :
    ETD.learnChecked (ETD.init 1) tChecked =
      Except.ok (ETD.learn (ETD.init 1) tChecked) ∧
    ETD.make (-1) = Except.error Err.InvalidArgument ∧
    ETD.predictChecked (ETD.init 1) [] = Except.error Err.InvalidArgument := by
  refine ⟨(etd_invalid_argument (-1) (ETD.init 1) tChecked []).2.2.2.1 rfl rfl,
    (etd_invalid_argument (-1) (ETD.init 1) tChecked []).2.1.mpr (by norm_num),
    (etd_invalid_argument (-1) (ETD.init 1) tChecked []).2.2.2.2.mpr (by
      simp [ETD.init])⟩

/-- A fresh `ETD` and a fresh `TOETD` of the same dimension agree. -/
theorem agrees_init (n : ℕ) (I0 : ℚ) : agrees (ETD.init n) (TOETD.init n I0) :=
  ⟨rfl, rfl, rfl, rfl, rfl⟩

/-- One step of the simulation: if the two variants agree and `ETD.learn`
receives as `gamma` exactly the `gamma` stored by the `TOETD` instance, the
two updated states agree again. -/
theorem learn_agrees (a : ETD) (b : TOETD) (t : Transition) (h : agrees a b) :
    agrees (ETD.learn a { t with gamma := b.gamma })
      (TOETD.learn b t.alpha t.I t.lambda t.phi t.rho t.r t.phi_p t.gamma_p) := by
  obtain ⟨an, aθ, ae, aF, aD⟩ := a
  obtain ⟨bθ, be, bn, bF, bD, bg⟩ := b
  obtain ⟨hn, hθ, he, hF, hD⟩ := h
  simp only at hn hθ he hF hD
  subst hn
  subst hθ
  subst he
  subst hF
  subst hD
  refine ⟨rfl, ?_, ?_, ?_, ?_⟩ <;>
    simp only [ETD.learn, ETD.deltaComp, ETD.traceNext, ETD.tdError, ETD.Sof,
      ETD.Mof, ETD.dot, TOETD.learn, TOETD.dot]

/-- The simulation extended along any transition sequence, with the `gamma`
arguments threaded from the `TOETD` instance's stored `gamma`. -/
theorem runSeq_agrees (ts : List Transition) (a : ETD) (b : TOETD)
    (h : agrees a b) :
    agrees (ETD.runSeq a (threadGammas b.gamma ts)) (TOETD.runSeq b ts) := by
  induction ts generalizing a b with
  | nil => exact h
  | cons t ts ih =>
    rw [threadGammas, ETD.runSeq, TOETD.runSeq]
    exact ih _ _ (learn_agrees a b t h)

/-- Claim C3: fresh `ETD` and `TOETD` instances of the same dimension are
behaviorally identical — identical `weights`, `trace`, `followon` and
`dual` after each call — provided the `gamma` argument of `ETD.learn` is
`0` on the first call and the previous call's `gamma_next` afterwards,
matching `TOETD`'s carried `gamma` state (the statement quantifies over
every transition sequence, hence over every prefix of calls). -/
theorem etd_toetd_equivalent (n : ℕ) (I0 : ℚ) (ts : List Transition) :
    agrees (ETD.runSeq (ETD.init n) (threadGammas 0 ts))
      (TOETD.runSeq (TOETD.init n I0) ts) :=
  runSeq_agrees ts (ETD.init n) (TOETD.init n I0) (agrees_init n I0)

/-- Witness for C10: a state with nonzero weights, trace, followon and dual,
fed a transition with `rho = 0` and all other arguments nonzero. -/
theorem etd_rho_zero_witness :
    ETD.deltaComp sRhoZero tRhoZero 0 = 0 ∧
    (ETD.learn sRhoZero tRhoZero).theta = sRhoZero.theta ∧
    (ETD.learn sRhoZero tRhoZero).e = List.replicate sRhoZero.n 0 ∧
    (ETD.learn sRhoZero tRhoZero).F = 0 ∧
    (ETD.learn sRhoZero tRhoZero).D = 0 := by
  have h := etd_rho_zero sRhoZero tRhoZero rfl rfl
  exact ⟨h.1 0, h.2.1, h.2.2.1, h.2.2.2.1, h.2.2.2.2⟩

end RLAlg
